import Mathlib

/-!
Verification of the planning-poker session hub (griffinpj/planning-poker).

The Go sources are embedded shallowly:
* the storage tables that the handlers touch (one session row, its tickets,
  the votes table) become a `DB` structure; each fallible storage call of a
  handler is given an explicit `Bool` outcome parameter;
* every HTTP handler of interest becomes a pure function from the storage
  state, the caller resolved by `GetUserFromContext`, and the request
  parameters to an `HResult`: the storage state afterwards, the program-order
  trace of storage calls and hub broadcasts, and the HTTP response category;
* the WebSocket and SSE fan-out services become registries of clients with
  bounded outbound queues, their `Register` / `Unregister` / `Broadcast`
  operations translated call for call.
-/

namespace PokerPlanning

/-- The caller identity produced by GetUserFromContext
(internal/models/models.go, struct User; only the fields the handlers read). -/
structure User where
  id : String
  username : String
  deriving Repr, DecidableEq

/-- One row of the sessions table, i.e. the mutable fields of models.Session
that the mutating handlers read and write (internal/models/models.go). -/
structure Session where
  id : String
  ownerID : String
  currentTicketID : Option Nat
  isVotingActive : Bool
  deriving Repr, DecidableEq

/-- One row of the tickets table (internal/models/models.go, struct Ticket). -/
structure Ticket where
  id : Nat
  sessionID : String
  title : String
  description : String
  finalEstimate : Option Int
  position : Nat
  deriving Repr, DecidableEq

/-- One row of the votes table; the schema has UNIQUE(ticket_id, user_id)
(migrations/001_initial_schema.sql). The autoincrement id and created_at
columns are represented by the position in the list. -/
structure Vote where
  ticketID : Nat
  userID : String
  voteValue : String
  deriving Repr, DecidableEq

/-- The storage state one session worth of handlers operates on: the session
row, its tickets ordered by position (getSessionTickets uses ORDER BY
position), and the votes table ordered by created_at. `nextTicketID` is the
AUTOINCREMENT counter of the tickets table; `sessionDeleted` records that the
session row was deleted (GetSessionByID then returns nil). -/
structure DB where
  session : Session
  tickets : List Ticket
  votes : List Vote
  nextTicketID : Nat
  sessionDeleted : Bool
  deriving Repr, DecidableEq

/-- The broadcast events (models.SSEMessage values) that the mutating handlers
hand to WSService.Broadcast, one constructor per Type string with its payload. -/
inductive Event where
  | voteCast (userID : String) (vote : Vote)
  | votingStarted (currentTicket : Ticket)
  | votingEnded (currentTicket : Ticket) (votes : List Vote)
  | ticketChanged (nextTicket : Option Ticket)
  | ticketCreated (ticket : Ticket)
  | ticketUpdated (ticket : Ticket)
  | ticketDeleted (ticketID : Nat)
  | sessionEnded (message : String)
  | userJoined (userID : String)
  | userLeft (userID : String)
  deriving Repr, DecidableEq

/-- One step of a handler run, in program order: either a storage call
(with its name and whether it succeeded) or a hub broadcast. -/
inductive Action where
  | store (op : String) (ok : Bool)
  | emit (ev : Event)
  deriving Repr, DecidableEq

/-- The HTTP response category a handler run produces. `panicked` stands for a
nil-pointer dereference inside the handler; the RecoverFromPanic middleware
(cmd/server/main.go line 53) turns it into a 500 response, the process
survives. -/
inductive Resp where
  | unauthorized
  | badRequest (msg : String)
  | notFound (msg : String)
  | forbidden (msg : String)
  | internalError (msg : String)
  | panicked
  | ok
  deriving Repr, DecidableEq

/-- Result of one handler run: storage state afterwards, the program-order
trace of storage calls and broadcasts, and the response. -/
structure HResult where
  db : DB
  trace : List Action
  resp : Resp
  deriving Repr, DecidableEq

/-- The events a handler run broadcast, in order. -/
def HResult.events (r : HResult) : List Event :=
  r.trace.filterMap (fun a => match a with
    | .emit e => some e
    | .store _ _ => none)

/-- Every storage call in the trace succeeded. -/
def storesAllOk (tr : List Action) : Bool :=
  tr.all (fun a => match a with
    | .store _ ok => ok
    | .emit _ => true)

/-- No storage call occurs after a broadcast in the trace: whatever is
broadcast was constructed after the storage steps. -/
def noStoreAfterEmit : List Action → Bool
  | [] => true
  | .store _ _ :: rest => noStoreAfterEmit rest
  | .emit _ :: rest => rest.all (fun a => match a with
      | .emit _ => true
      | .store _ _ => false)

/-- The handler run broadcast only things already durably applied: if it
broadcast at all then every storage call it made succeeded, and no storage
call came after a broadcast. -/
def emitImpliesApplied (r : HResult) : Prop :=
  (r.events ≠ [] → storesAllOk r.trace = true) ∧ noStoreAfterEmit r.trace = true

/-! ### Voting cards and validation (internal/models/models.go, internal/utils/validation.go) -/

/-- models.FibonacciCards. -/
def FibonacciCards : List String :=
  ["0", "1", "2", "3", "5", "8", "13", "21", "34", "55", "89", "144"]

/-- models.SpecialCards. -/
def SpecialCards : List String := ["☕", "?"]

/-- models.AllVotingCards: Fibonacci cards followed by the special cards. -/
def AllVotingCards : List String := FibonacciCards ++ SpecialCards

/-- utils.ValidateVoteValue. The list is copied byte for byte from
internal/utils/validation.go line 140; its coffee entry is mojibake and in
particular differs from the coffee card in models.AllVotingCards. -/
def ValidateVoteValue (voteValue : String) : Bool :=
  ["0", "1", "2", "3", "5", "8", "13", "21", "34", "â˜•", "?"].contains voteValue

/-- The strings.TrimSpace call of the validators, written on the character
list so that it evaluates. -/
def trimString (s : String) : String :=
  ⟨((s.data.dropWhile Char.isWhitespace).reverse.dropWhile Char.isWhitespace).reverse⟩

/-- utils.ValidateTicketTitle: nonempty after trimming and at most 200
characters (the regexp of internal/utils/validation.go). -/
def ValidateTicketTitle (title : String) : Bool :=
  let t := trimString title
  !(t == "") && t.length ≤ 200

/-- utils.ValidateTicketDescription: at most 1000 characters. -/
def ValidateTicketDescription (description : String) : Bool :=
  description.length ≤ 1000

/-! ### Storage operations (internal/services/voting.go, session.go, tickets part) -/

/-- VotingService.SubmitVote: INSERT OR REPLACE on the UNIQUE(ticket_id,
user_id) key. The fresh created_at of the replacing row moves it to the end
of the created_at order that GetVotesForTicket returns. -/
def submitVoteStore (votes : List Vote) (ticketID : Nat) (userID voteValue : String) :
    List Vote :=
  votes.filter (fun v => !(v.ticketID == ticketID && v.userID == userID)) ++
    [⟨ticketID, userID, voteValue⟩]

/-- VotingService.ClearVotesForTicket: DELETE FROM votes WHERE ticket_id = x. -/
def clearVotesForTicket (votes : List Vote) (ticketID : Nat) : List Vote :=
  votes.filter (fun v => !(v.ticketID == ticketID))

/-- VotingService.GetVotesForTicket: SELECT ... WHERE ticket_id = x ORDER BY
created_at. -/
def getVotesForTicket (votes : List Vote) (ticketID : Nat) : List Vote :=
  votes.filter (fun v => v.ticketID == ticketID)

/-- GetSessionByID returns a session (rather than nil) exactly when the
requested id matches an undeleted session row. -/
def DB.sessionFound (db : DB) (sessionID : String) : Bool :=
  sessionID == db.session.id && !db.sessionDeleted

/-- The CurrentTicket pointer GetSessionByID resolves: the ticket of the
session whose id equals current_ticket_id, if any
(internal/services session service, GetSessionByID). -/
def DB.currentTicket (db : DB) : Option Ticket :=
  match db.session.currentTicketID with
  | none => none
  | some tid => db.tickets.find? (fun t => t.id == tid)

/-! ### Handlers (internal/handlers/voting.go) -/

/-- Embedding of Handler.SubmitVote (internal/handlers/voting.go lines 13-73).
`voteValue` is the form value after SanitizeInput; `getOk` and `submitOk` are
the outcomes of the GetSessionByID and VotingService.SubmitVote storage calls. -/
def Handler.SubmitVote (db : DB) (caller : Option User) (sessionID voteValue : String)
    (getOk submitOk : Bool) : HResult :=
  match caller with
  | none => ⟨db, [], .unauthorized⟩
  | some user =>
    if !(ValidateVoteValue voteValue) then ⟨db, [], .badRequest "Invalid vote value"⟩
    else if !getOk then
      ⟨db, [.store "GetSessionByID" false], .internalError "Failed to get session"⟩
    else if !(db.sessionFound sessionID) then
      ⟨db, [.store "GetSessionByID" true], .notFound "Session not found"⟩
    else
      match db.currentTicket with
      | none => ⟨db, [.store "GetSessionByID" true], .badRequest "No active ticket"⟩
      | some ct =>
        if !(AllVotingCards.contains voteValue) then
          ⟨db, [.store "GetSessionByID" true], .badRequest "Invalid vote value"⟩
        else if !submitOk then
          ⟨db, [.store "GetSessionByID" true, .store "SubmitVote" false],
           .internalError "Failed to submit vote"⟩
        else
          ⟨{ db with votes := submitVoteStore db.votes ct.id user.id voteValue },
           [.store "GetSessionByID" true, .store "SubmitVote" true,
            .emit (.voteCast user.id ⟨ct.id, user.id, voteValue⟩)],
           .ok⟩

/-- Embedding of Handler.StartVoting (internal/handlers/voting.go lines
75-124): owner only, requires a current ticket, sets is_voting_active, then
clears the votes of the current ticket, then broadcasts voting-started. -/
def Handler.StartVoting (db : DB) (caller : Option User) (sessionID : String)
    (getOk updateOk clearOk : Bool) : HResult :=
  match caller with
  | none => ⟨db, [], .unauthorized⟩
  | some user =>
    if !getOk then
      ⟨db, [.store "GetSessionByID" false], .internalError "Failed to get session"⟩
    else if !(db.sessionFound sessionID) then
      ⟨db, [.store "GetSessionByID" true], .notFound "Session not found"⟩
    else if !(db.session.ownerID == user.id) then
      ⟨db, [.store "GetSessionByID" true], .forbidden "Only session owner can start voting"⟩
    else
      match db.currentTicket with
      | none => ⟨db, [.store "GetSessionByID" true], .badRequest "No active ticket"⟩
      | some ct =>
        if !updateOk then
          ⟨db, [.store "GetSessionByID" true, .store "UpdateSession" false],
           .internalError "Failed to start voting"⟩
        else
          let db1 := { db with session := { db.session with isVotingActive := true } }
          if !clearOk then
            ⟨db1, [.store "GetSessionByID" true, .store "UpdateSession" true,
                   .store "ClearVotesForTicket" false],
             .internalError "Failed to clear votes"⟩
          else
            ⟨{ db1 with votes := clearVotesForTicket db1.votes ct.id },
             [.store "GetSessionByID" true, .store "UpdateSession" true,
              .store "ClearVotesForTicket" true, .emit (.votingStarted ct)],
             .ok⟩

/-- Embedding of Handler.EndVoting (internal/handlers/voting.go lines
126-173): owner only, sets is_voting_active to false, then reads
session.CurrentTicket.ID with NO nil check — when no current ticket is set the
handler dereferences a nil pointer after the session update has already been
applied. -/
def Handler.EndVoting (db : DB) (caller : Option User) (sessionID : String)
    (getOk updateOk getVotesOk : Bool) : HResult :=
  match caller with
  | none => ⟨db, [], .unauthorized⟩
  | some user =>
    if !getOk then
      ⟨db, [.store "GetSessionByID" false], .internalError "Failed to get session"⟩
    else if !(db.sessionFound sessionID) then
      ⟨db, [.store "GetSessionByID" true], .notFound "Session not found"⟩
    else if !(db.session.ownerID == user.id) then
      ⟨db, [.store "GetSessionByID" true], .forbidden "Only session owner can end voting"⟩
    else if !updateOk then
      ⟨db, [.store "GetSessionByID" true, .store "UpdateSession" false],
       .internalError "Failed to end voting"⟩
    else
      let db1 := { db with session := { db.session with isVotingActive := false } }
      match db.currentTicket with
      | none =>
        -- session.CurrentTicket.ID at line 158: nil-pointer dereference
        ⟨db1, [.store "GetSessionByID" true, .store "UpdateSession" true], .panicked⟩
      | some ct =>
        if !getVotesOk then
          ⟨db1, [.store "GetSessionByID" true, .store "UpdateSession" true,
                 .store "GetVotesForTicket" false],
           .internalError "Failed to get votes"⟩
        else
          ⟨db1, [.store "GetSessionByID" true, .store "UpdateSession" true,
                 .store "GetVotesForTicket" true,
                 .emit (.votingEnded ct (getVotesForTicket db1.votes ct.id))],
           .ok⟩

/-- The next-ticket search loop of Handler.NextTicket (lines 204-212): the
first ticket whose id equals the current id and that has a successor yields
that successor; reaching the end of the list yields nil. -/
def findNextTicket (curID : Nat) : List Ticket → Option Ticket
  | t1 :: t2 :: rest => if t1.id == curID then some t2 else findNextTicket curID (t2 :: rest)
  | _ => none

/-- The whole next-ticket computation of Handler.NextTicket (lines 199-212):
with no current ticket the first ticket of a nonempty list, otherwise the
successor found by the loop. -/
def computeNextTicket (db : DB) : Option Ticket :=
  match db.currentTicket, db.tickets with
  | none, t0 :: _ => some t0
  | none, [] => none
  | some ct, _ => findNextTicket ct.id db.tickets

/-- Embedding of Handler.NextTicket (internal/handlers/voting.go lines
175-233): owner only; advances to the successor of the current ticket (or the
first ticket when none is current), sets voting inactive, and broadcasts
ticket-changed with the new ticket — possibly nil — as payload. -/
def Handler.NextTicket (db : DB) (caller : Option User) (sessionID : String)
    (getOk updateOk : Bool) : HResult :=
  match caller with
  | none => ⟨db, [], .unauthorized⟩
  | some user =>
    if !getOk then
      ⟨db, [.store "GetSessionByID" false], .internalError "Failed to get session"⟩
    else if !(db.sessionFound sessionID) then
      ⟨db, [.store "GetSessionByID" true], .notFound "Session not found"⟩
    else if !(db.session.ownerID == user.id) then
      ⟨db, [.store "GetSessionByID" true], .forbidden "Only session owner can advance tickets"⟩
    else
      let nextTicket : Option Ticket := computeNextTicket db
      if !updateOk then
        ⟨db, [.store "GetSessionByID" true, .store "UpdateSession" false],
         .internalError "Failed to advance ticket"⟩
      else
        ⟨{ db with session := { db.session with
             currentTicketID := nextTicket.map (fun t => t.id),
             isVotingActive := false } },
         [.store "GetSessionByID" true, .store "UpdateSession" true,
          .emit (.ticketChanged nextTicket)],
         .ok⟩

/-- Embedding of Handler.SelectTicket (internal/handlers/voting.go lines
235-296). `ticketID` is the strconv.Atoi result of the URL parameter, `none`
when unparsable. -/
def Handler.SelectTicket (db : DB) (caller : Option User) (sessionID : String)
    (ticketID : Option Nat) (getOk updateOk : Bool) : HResult :=
  match caller with
  | none => ⟨db, [], .unauthorized⟩
  | some user =>
    if !getOk then
      ⟨db, [.store "GetSessionByID" false], .internalError "Failed to get session"⟩
    else if !(db.sessionFound sessionID) then
      ⟨db, [.store "GetSessionByID" true], .notFound "Session not found"⟩
    else if !(db.session.ownerID == user.id) then
      ⟨db, [.store "GetSessionByID" true], .forbidden "Only session owner can select tickets"⟩
    else
      match ticketID with
      | none => ⟨db, [.store "GetSessionByID" true], .badRequest "Invalid ticket ID"⟩
      | some tid =>
        match db.tickets.find? (fun t => t.id == tid) with
        | none => ⟨db, [.store "GetSessionByID" true], .notFound "Ticket not found"⟩
        | some selectedTicket =>
          if !updateOk then
            ⟨db, [.store "GetSessionByID" true, .store "UpdateSession" false],
             .internalError "Failed to select ticket"⟩
          else
            ⟨{ db with session := { db.session with
                 currentTicketID := some tid, isVotingActive := false } },
             [.store "GetSessionByID" true, .store "UpdateSession" true,
              .emit (.ticketChanged (some selectedTicket))],
             .ok⟩

/-! ### Ticket handlers (internal/handlers, ticket file) -/

/-- The COALESCE(MAX(position), 0) query of TicketService.CreateTicket. -/
def maxPosition (tickets : List Ticket) : Nat :=
  (tickets.map (fun t => t.position)).foldl max 0

/-- Embedding of Handler.CreateTicket: owner only; validates title and
description, inserts the ticket at position max+1 with the next autoincrement
id, then broadcasts ticket-created. `createOk` is the outcome of the
TicketService.CreateTicket storage call (its position query and insert). -/
def Handler.CreateTicket (db : DB) (caller : Option User)
    (sessionID title description : String) (getOk createOk : Bool) : HResult :=
  match caller with
  | none => ⟨db, [], .unauthorized⟩
  | some user =>
    if !getOk then
      ⟨db, [.store "GetSessionByID" false], .internalError "Failed to get session"⟩
    else if !(db.sessionFound sessionID) then
      ⟨db, [.store "GetSessionByID" true], .notFound "Session not found"⟩
    else if !(db.session.ownerID == user.id) then
      ⟨db, [.store "GetSessionByID" true], .forbidden "Only session owner can create tickets"⟩
    else if !(ValidateTicketTitle title && ValidateTicketDescription description) then
      ⟨db, [.store "GetSessionByID" true], .badRequest "validation errors"⟩
    else if !createOk then
      ⟨db, [.store "GetSessionByID" true, .store "CreateTicket" false],
       .internalError "Failed to create ticket"⟩
    else
      let ticket : Ticket :=
        ⟨db.nextTicketID, sessionID, title, description, none, maxPosition db.tickets + 1⟩
      ⟨{ db with tickets := db.tickets ++ [ticket], nextTicketID := db.nextTicketID + 1 },
       [.store "GetSessionByID" true, .store "CreateTicket" true,
        .emit (.ticketCreated ticket)],
       .ok⟩

/-- Embedding of Handler.UpdateTicket: owner only; an empty title keeps the
old one, the description is always overwritten, a parsed final_estimate form
value replaces the stored one. `finalEstimateForm` is the successfully parsed
strconv.Atoi value of the final_estimate form field, `none` when the field is
empty or unparsable. -/
def Handler.UpdateTicket (db : DB) (caller : Option User) (sessionID : String)
    (ticketID : Option Nat) (title description : String) (finalEstimateForm : Option Int)
    (getOk getTicketOk updateOk : Bool) : HResult :=
  match caller with
  | none => ⟨db, [], .unauthorized⟩
  | some user =>
    match ticketID with
    | none => ⟨db, [], .badRequest "Invalid ticket ID"⟩
    | some tid =>
      if !getOk then
        ⟨db, [.store "GetSessionByID" false], .internalError "Failed to get session"⟩
      else if !(db.sessionFound sessionID) then
        ⟨db, [.store "GetSessionByID" true], .notFound "Session not found"⟩
      else if !(db.session.ownerID == user.id) then
        ⟨db, [.store "GetSessionByID" true], .forbidden "Only session owner can update tickets"⟩
      else if !getTicketOk then
        ⟨db, [.store "GetSessionByID" true, .store "GetTicketByID" false],
         .internalError "Failed to get ticket"⟩
      else
        match db.tickets.find? (fun t => t.id == tid) with
        | none =>
          ⟨db, [.store "GetSessionByID" true, .store "GetTicketByID" true],
           .notFound "Ticket not found"⟩
        | some ticket =>
          if !(ticket.sessionID == sessionID) then
            ⟨db, [.store "GetSessionByID" true, .store "GetTicketByID" true],
             .badRequest "Ticket does not belong to this session"⟩
          else
            let updated : Ticket :=
              { ticket with
                title := if title == "" then ticket.title else title,
                description := description,
                finalEstimate := match finalEstimateForm with
                  | some est => some est
                  | none => ticket.finalEstimate }
            if !updateOk then
              ⟨db, [.store "GetSessionByID" true, .store "GetTicketByID" true,
                    .store "UpdateTicket" false],
               .internalError "Failed to update ticket"⟩
            else
              ⟨{ db with tickets := db.tickets.map (fun t => if t.id == tid then updated else t) },
               [.store "GetSessionByID" true, .store "GetTicketByID" true,
                .store "UpdateTicket" true, .emit (.ticketUpdated updated)],
               .ok⟩

/-- TicketService.DeleteTicket storage effect: delete the ticket row (its
votes go with it through the ON DELETE CASCADE foreign key) and decrement the
position of every later ticket of the session. -/
def deleteTicketStore (db : DB) (ticket : Ticket) : DB :=
  { db with
    tickets := (db.tickets.filter (fun t => !(t.id == ticket.id))).map
      (fun t => if t.position > ticket.position then { t with position := t.position - 1 } else t),
    votes := db.votes.filter (fun v => !(v.ticketID == ticket.id)) }

/-- Embedding of Handler.DeleteTicket: owner only; when the deleted ticket is
the current one, the current pointer and the voting flag are first cleared by
a separate UpdateSession call, then the ticket row is deleted and
ticket-deleted is broadcast. -/
def Handler.DeleteTicket (db : DB) (caller : Option User) (sessionID : String)
    (ticketID : Option Nat) (getOk getTicketOk updateOk deleteOk : Bool) : HResult :=
  match caller with
  | none => ⟨db, [], .unauthorized⟩
  | some user =>
    match ticketID with
    | none => ⟨db, [], .badRequest "Invalid ticket ID"⟩
    | some tid =>
      if !getOk then
        ⟨db, [.store "GetSessionByID" false], .internalError "Failed to get session"⟩
      else if !(db.sessionFound sessionID) then
        ⟨db, [.store "GetSessionByID" true], .notFound "Session not found"⟩
      else if !(db.session.ownerID == user.id) then
        ⟨db, [.store "GetSessionByID" true], .forbidden "Only session owner can delete tickets"⟩
      else if !getTicketOk then
        ⟨db, [.store "GetSessionByID" true, .store "GetTicketByID" false],
         .internalError "Failed to get ticket"⟩
      else
        match db.tickets.find? (fun t => t.id == tid) with
        | none =>
          ⟨db, [.store "GetSessionByID" true, .store "GetTicketByID" true],
           .notFound "Ticket not found"⟩
        | some ticket =>
          if !(ticket.sessionID == sessionID) then
            ⟨db, [.store "GetSessionByID" true, .store "GetTicketByID" true],
             .badRequest "Ticket does not belong to this session"⟩
          else if db.session.currentTicketID == some tid then
            if !updateOk then
              ⟨db, [.store "GetSessionByID" true, .store "GetTicketByID" true,
                    .store "UpdateSession" false],
               .internalError "Failed to update session"⟩
            else
              let db1 := { db with session := { db.session with
                  currentTicketID := none, isVotingActive := false } }
              if !deleteOk then
                ⟨db1, [.store "GetSessionByID" true, .store "GetTicketByID" true,
                       .store "UpdateSession" true, .store "DeleteTicket" false],
                 .internalError "Failed to delete ticket"⟩
              else
                ⟨deleteTicketStore db1 ticket,
                 [.store "GetSessionByID" true, .store "GetTicketByID" true,
                  .store "UpdateSession" true, .store "DeleteTicket" true,
                  .emit (.ticketDeleted tid)],
                 .ok⟩
          else
            if !deleteOk then
              ⟨db, [.store "GetSessionByID" true, .store "GetTicketByID" true,
                    .store "DeleteTicket" false],
               .internalError "Failed to delete ticket"⟩
            else
              ⟨deleteTicketStore db ticket,
               [.store "GetSessionByID" true, .store "GetTicketByID" true,
                .store "DeleteTicket" true, .emit (.ticketDeleted tid)],
               .ok⟩

/-- Embedding of Handler.DeleteSession: owner only; broadcasts session-ended
to all participants BEFORE the storage delete (the comment in the source says
so explicitly), so a failing delete has already emitted the event. -/
def Handler.DeleteSession (db : DB) (caller : Option User) (sessionID : String)
    (getOk deleteOk : Bool) : HResult :=
  match caller with
  | none => ⟨db, [], .unauthorized⟩
  | some user =>
    if !getOk then
      ⟨db, [.store "GetSessionByID" false], .internalError "Failed to get session"⟩
    else if !(db.sessionFound sessionID) then
      ⟨db, [.store "GetSessionByID" true], .notFound "Session not found"⟩
    else if !(db.session.ownerID == user.id) then
      ⟨db, [.store "GetSessionByID" true], .forbidden "Only session owner can delete the session"⟩
    else if !deleteOk then
      ⟨db, [.store "GetSessionByID" true,
            .emit (.sessionEnded "Session has been ended by the owner"),
            .store "DeleteSession" false],
       .internalError "Failed to delete session"⟩
    else
      ⟨{ db with tickets := [], votes := [], sessionDeleted := true },
       [.store "GetSessionByID" true,
        .emit (.sessionEnded "Session has been ended by the owner"),
        .store "DeleteSession" true],
       .ok⟩

/-! ### WebSocket fan-out service (internal/services/websocket.go) -/

/-- The outbound queue capacity of a WebSocket client: make(chan SSEMessage, 256). -/
def wsQueueCap : Nat := 256

/-- A registered WebSocket client. `conn` stands for the distinct underlying
transport handle (the Conn pointer); `send` is the content of the bounded
outbound channel, oldest message first. -/
structure WSClient where
  id : String
  sessionID : String
  userID : String
  conn : Nat
  send : List Event
  deriving Repr, DecidableEq

/-- The WSService client map, keyed by WSClient.id. A Go map is unordered; the
list order is a chosen representative and all claims proved about it are
order-insensitive. -/
structure WSService where
  clients : List WSClient
  deriving Repr, DecidableEq

/-- The register arm of WSService.Run: a plain map write, so a client whose id
is already present is REPLACED. -/
def WSService.register (ws : WSService) (c : WSClient) : WSService :=
  ⟨(ws.clients.filter (fun x => !(x.id == c.id))) ++ [c]⟩

/-- The unregister arm of WSService.Run: delete the id from the map and close
its channel; an absent id is left alone. Either way the map afterwards holds
no entry with that id. -/
def WSService.unregister (ws : WSService) (clientID : String) : WSService :=
  ⟨ws.clients.filter (fun x => !(x.id == clientID))⟩

/-- The broadcast arm of WSService.Run: every client of the session gets a
nonblocking send; a client whose channel is full is deleted from the map and
its channel closed (the default arm of the select). -/
def WSService.broadcast (ws : WSService) (sessionID : String) (message : Event) : WSService :=
  ⟨ws.clients.filterMap (fun c =>
    if c.sessionID == sessionID then
      if c.send.length < wsQueueCap then some { c with send := c.send ++ [message] }
      else none
    else some c)⟩

/-- Embedding of WSService.HandleWebSocket: builds the client with id
sessionID + underscore + userID and an empty queue of capacity 256, and
registers it. `conn` is the fresh transport handle of this upgrade. -/
def HandleWebSocket (ws : WSService) (sessionID userID : String) (conn : Nat) :
    WSService × WSClient :=
  let client : WSClient := ⟨sessionID ++ "_" ++ userID, sessionID, userID, conn, []⟩
  (ws.register client, client)

/-! ### SSE fan-out service (internal/services/sse.go) -/

/-- The outbound queue capacity of an SSE client: make(chan SSEMessage, 10). -/
def sseQueueCap : Nat := 10

/-- A registered SSE client; its id embeds the UnixNano timestamp of
AddClient, so ids of repeated connections differ. -/
structure SSEClient where
  id : String
  sessionID : String
  userID : String
  channel : List Event
  deriving Repr, DecidableEq

/-- The SSEService client map, keyed by SSEClient.id (same list-as-map reading
as for WSService). -/
structure SSEService where
  clients : List SSEClient
  deriving Repr, DecidableEq

/-- SSEService.AddClient: id is sessionID, userID and the UnixNano timestamp
joined by underscores; fresh empty channel of capacity 10. -/
def SSEService.addClient (s : SSEService) (sessionID userID : String) (nano : Nat) :
    SSEService × SSEClient :=
  let client : SSEClient :=
    ⟨sessionID ++ "_" ++ userID ++ "_" ++ toString nano, sessionID, userID, []⟩
  (⟨(s.clients.filter (fun x => !(x.id == client.id))) ++ [client]⟩, client)

/-- SSEService.RemoveClient: close and delete when the id is present,
otherwise do nothing. Either way the map afterwards holds no entry with that
id. -/
def SSEService.removeClient (s : SSEService) (clientID : String) : SSEService :=
  ⟨s.clients.filter (fun x => !(x.id == clientID))⟩

/-- SSEService.Broadcast: every client of the session gets a send with a 100ms
timeout; in the scenario of the spec (the full channel is not drained) a full
channel means the message is dropped for that client and the client stays
registered. The caller gets no error in any case. -/
def SSEService.broadcast (s : SSEService) (sessionID : String) (message : Event) : SSEService :=
  ⟨s.clients.map (fun c =>
    if c.sessionID == sessionID && c.channel.length < sseQueueCap then
      { c with channel := c.channel ++ [message] }
    else c)⟩

/-! ## Theorems -/

/-- C8: removing a connection identifier that is not registered is a no-op,
removing twice equals removing once, and the registration state of every other
connection is untouched — for the SSE registry (RemoveClient) and the
WebSocket registry (the unregister arm of Run) alike. -/
theorem removeClient_idempotent_noop :
    (∀ (s : SSEService) (clientID : String),
      (∀ c ∈ s.clients, c.id ≠ clientID) → s.removeClient clientID = s) ∧
    (∀ (s : SSEService) (clientID : String),
      (s.removeClient clientID).removeClient clientID = s.removeClient clientID) ∧
    (∀ (s : SSEService) (clientID : String) (c : SSEClient), c.id ≠ clientID →
      (c ∈ (s.removeClient clientID).clients ↔ c ∈ s.clients)) ∧
    (∀ (ws : WSService) (clientID : String),
      (∀ c ∈ ws.clients, c.id ≠ clientID) → ws.unregister clientID = ws) ∧
    (∀ (ws : WSService) (clientID : String),
      (ws.unregister clientID).unregister clientID = ws.unregister clientID) ∧
    (∀ (ws : WSService) (clientID : String) (c : WSClient), c.id ≠ clientID →
      (c ∈ (ws.unregister clientID).clients ↔ c ∈ ws.clients)) := by
  refine ⟨?_, ?_, ?_, ?_, ?_, ?_⟩
  · intro s clientID h
    cases s with
    | mk clients =>
      simp only [SSEService.removeClient, SSEService.mk.injEq]
      exact List.filter_eq_self.mpr (fun c hc => by simpa using h c hc)
  · intro s clientID
    simp [SSEService.removeClient, List.filter_filter]
  · intro s clientID c h
    simp only [SSEService.removeClient, List.mem_filter]
    constructor
    · exact fun hc => hc.1
    · intro hc
      exact ⟨hc, by simpa using h⟩
  · intro ws clientID h
    cases ws with
    | mk clients =>
      simp only [WSService.unregister, WSService.mk.injEq]
      exact List.filter_eq_self.mpr (fun c hc => by simpa using h c hc)
  · intro ws clientID
    simp [WSService.unregister, List.filter_filter]
  · intro ws clientID c h
    simp only [WSService.unregister, List.mem_filter]
    constructor
    · exact fun hc => hc.1
    · intro hc
      exact ⟨hc, by simpa using h⟩

/-- Witness for C8 at a concrete one-client registry. -/
theorem removeClient_idempotent_noop_witness :
    (SSEService.removeClient ⟨[⟨"a", "s1", "u1", []⟩]⟩ "b" = ⟨[⟨"a", "s1", "u1", []⟩]⟩) ∧
    ((⟨"a", "s1", "u1", []⟩ : SSEClient) ∈
      (SSEService.removeClient ⟨[⟨"a", "s1", "u1", []⟩]⟩ "b").clients ↔
      (⟨"a", "s1", "u1", []⟩ : SSEClient) ∈ [(⟨"a", "s1", "u1", []⟩ : SSEClient)]) ∧
    (WSService.unregister ⟨[⟨"a", "s1", "u1", 0, []⟩]⟩ "b" = ⟨[⟨"a", "s1", "u1", 0, []⟩]⟩) := by
  refine ⟨?_, ?_, ?_⟩
  · exact removeClient_idempotent_noop.1 ⟨[⟨"a", "s1", "u1", []⟩]⟩ "b" (by decide)
  · exact removeClient_idempotent_noop.2.2.1 ⟨[⟨"a", "s1", "u1", []⟩]⟩ "b"
      ⟨"a", "s1", "u1", []⟩ (by decide)
  · exact removeClient_idempotent_noop.2.2.2.1 ⟨[⟨"a", "s1", "u1", 0, []⟩]⟩ "b" (by decide)

/-- The concrete WebSocket registry after the same (session, user) opens two
tabs: both upgrades compute the same client id s1_alice. -/
def wsTwoTabs : WSService :=
  (HandleWebSocket (HandleWebSocket ⟨[]⟩ "s1" "alice" 1).1 "s1" "alice" 2).1

/-- C3 counterexample: after two simultaneous connections of the same
(session, user), the WebSocket registry holds ONE connection, not two — the
first tab (transport handle 1) is gone — and a broadcast enqueues one copy in
total, onto the second tab only. -/
theorem ws_second_tab_replaces_first :
    wsTwoTabs.clients.length = 1 ∧
    (⟨"s1_alice", "s1", "alice", 1, []⟩ : WSClient) ∉ wsTwoTabs.clients ∧
    (wsTwoTabs.broadcast "s1" (.userJoined "bob")).clients.map (fun c => c.send) =
      [[Event.userJoined "bob"]] := by
  decide

/-- C3 amended: the WebSocket registry keys connections by sessionID_userID,
so the second registration for the same (session, user) REPLACES the first —
the registry afterwards equals the one obtained by registering only the
newer tab — and a single Broadcast to the session enqueues exactly one copy
for that (session, user), onto the surviving (newest) connection. -/
theorem ws_register_same_user_replaces (ws : WSService) (sessionID userID : String)
    (conn1 conn2 : Nat) (ev : Event) :
    (HandleWebSocket (HandleWebSocket ws sessionID userID conn1).1 sessionID userID conn2).1 =
      (HandleWebSocket ws sessionID userID conn2).1 ∧
    (((HandleWebSocket (HandleWebSocket ws sessionID userID conn1).1 sessionID userID
        conn2).1.broadcast sessionID ev).clients.filter
          (fun c => c.id == sessionID ++ "_" ++ userID)) =
      [⟨sessionID ++ "_" ++ userID, sessionID, userID, conn2, [ev]⟩] := by
  have hgen : ∀ (l : List WSClient), (∀ c ∈ l, c.id ≠ sessionID ++ "_" ++ userID) →
      (l.filterMap (fun c =>
        if c.sessionID == sessionID then
          if c.send.length < wsQueueCap then some { c with send := c.send ++ [ev] } else none
        else some c)).filter (fun c => c.id == sessionID ++ "_" ++ userID) = [] := by
    intro l hl
    refine List.filter_eq_nil_iff.mpr ?_
    intro c hc
    rcases List.mem_filterMap.mp hc with ⟨a, ha, hfa⟩
    have hcid : c.id = a.id := by
      by_cases hs : (a.sessionID == sessionID) = true
      · by_cases hq : a.send.length < wsQueueCap
        · simp [hs, hq] at hfa
          simp [← hfa]
        · simp [hs, hq] at hfa
      · simp [hs] at hfa
        simp [← hfa]
    simpa [hcid] using hl a ha
  constructor
  · simp [HandleWebSocket, WSService.register, List.filter_append, List.filter_filter]
  · simp only [HandleWebSocket, WSService.register, WSService.broadcast,
      List.filter_append, List.filterMap_append]
    rw [hgen _ ?h1, hgen _ ?h2]
    case h1 =>
      intro c hc
      have := (List.mem_filter.mp hc).2
      simpa using this
    case h2 =>
      intro c hc
      have := (List.mem_filter.mp hc).2
      simpa using this
    simp [wsQueueCap]

/-- C7: broadcasting to a session where one connection has a full bounded
queue drops the event for that connection only. In the SSE service the full
client keeps its queue and stays registered; in the WebSocket service the
full client is unregistered; in both, every other connection of the session
with room receives its own copy, connections of other sessions are untouched,
and the broadcast call reports no error to its caller (both Broadcast
functions return nothing). -/
theorem broadcast_full_queue_drop :
    (∀ (s : SSEService) (sid : String) (ev : Event) (c : SSEClient), c ∈ s.clients →
      ((c.sessionID = sid → sseQueueCap ≤ c.channel.length →
         c ∈ (s.broadcast sid ev).clients) ∧
       (c.sessionID = sid → c.channel.length < sseQueueCap →
         { c with channel := c.channel ++ [ev] } ∈ (s.broadcast sid ev).clients) ∧
       (c.sessionID ≠ sid → c ∈ (s.broadcast sid ev).clients))) ∧
    (∀ (ws : WSService) (sid : String) (ev : Event) (c : WSClient), c ∈ ws.clients →
      ((c.sessionID = sid → c.send.length < wsQueueCap →
         { c with send := c.send ++ [ev] } ∈ (ws.broadcast sid ev).clients) ∧
       (c.sessionID ≠ sid → c ∈ (ws.broadcast sid ev).clients) ∧
       ((ws.clients.map (fun x => x.id)).Nodup → c.sessionID = sid →
         wsQueueCap ≤ c.send.length →
         ∀ x ∈ (ws.broadcast sid ev).clients, x.id ≠ c.id))) := by
  constructor
  · intro s sid ev c hc
    refine ⟨?_, ?_, ?_⟩
    · intro hs hfull
      simp only [SSEService.broadcast]
      refine List.mem_map.mpr ⟨c, hc, ?_⟩
      simp [Nat.not_lt.mpr hfull]
    · intro hs hroom
      simp only [SSEService.broadcast]
      refine List.mem_map.mpr ⟨c, hc, ?_⟩
      simp [hs, hroom]
    · intro hs
      simp only [SSEService.broadcast]
      refine List.mem_map.mpr ⟨c, hc, ?_⟩
      simp [hs]
  · intro ws sid ev c hc
    refine ⟨?_, ?_, ?_⟩
    · intro hs hroom
      refine List.mem_filterMap.mpr ⟨c, hc, ?_⟩
      simp [hs, hroom]
    · intro hs
      refine List.mem_filterMap.mpr ⟨c, hc, ?_⟩
      simp [hs]
    · intro hnodup hs hfull x hx hxid
      rcases List.mem_filterMap.mp hx with ⟨a, ha, hfa⟩
      have haid : a.id = x.id := by
        by_cases hsa : (a.sessionID == sid) = true
        · by_cases hq : a.send.length < wsQueueCap
          · simp [hsa, hq] at hfa
            simp [← hfa]
          · simp [hsa, hq] at hfa
        · simp [hsa] at hfa
          simp [← hfa]
      have hac : a = c :=
        List.inj_on_of_nodup_map hnodup ha hc (by rw [haid, hxid])
      subst hac
      by_cases hsa : (a.sessionID == sid) = true
      · simp [hsa, Nat.not_lt.mpr hfull] at hfa
      · simp [hs] at hsa

set_option maxRecDepth 8000 in
/-- Witness for C7: a session with one full SSE client, one SSE client with
room, one foreign-session SSE client, and the same shape for the WebSocket
service. -/
theorem broadcast_full_queue_drop_witness :
    (let full : SSEClient := ⟨"f", "s1", "u1", List.replicate 10 (.userJoined "x")⟩
     let other : SSEClient := ⟨"o", "s1", "u2", []⟩
     let svc : SSEService := ⟨[full, other]⟩
     full ∈ (svc.broadcast "s1" (.userLeft "y")).clients ∧
     ({ other with channel := [.userLeft "y"] } : SSEClient) ∈
       (svc.broadcast "s1" (.userLeft "y")).clients) ∧
    (let wfull : WSClient := ⟨"f", "s1", "u1", 0, List.replicate 256 (.userJoined "x")⟩
     let wother : WSClient := ⟨"o", "s1", "u2", 1, []⟩
     let wsvc : WSService := ⟨[wfull, wother]⟩
     ({ wother with send := [.userLeft "y"] } : WSClient) ∈
       (wsvc.broadcast "s1" (.userLeft "y")).clients ∧
     ∀ x ∈ (wsvc.broadcast "s1" (.userLeft "y")).clients, x.id ≠ "f") := by
  refine ⟨⟨?_, ?_⟩, ⟨?_, ?_⟩⟩
  · exact (broadcast_full_queue_drop.1 _ "s1" (.userLeft "y") _
      (List.mem_cons_self _ _)).1 rfl (by simp [sseQueueCap])
  · exact (broadcast_full_queue_drop.1 _ "s1" (.userLeft "y") _
      (List.mem_cons_of_mem _ (List.mem_cons_self _ _))).2.1 rfl (by decide)
  · exact (broadcast_full_queue_drop.2 _ "s1" (.userLeft "y") _
      (List.mem_cons_of_mem _ (List.mem_cons_self _ _))).1 rfl (by decide)
  · exact (broadcast_full_queue_drop.2 _ "s1" (.userLeft "y")
      ⟨"f", "s1", "u1", 0, List.replicate 256 (.userJoined "x")⟩
      (List.mem_cons_self _ _)).2.2 (by simp) rfl (by simp [wsQueueCap])

/-- C4: a caller who is not the session owner invoking start-voting,
end-voting, advance-ticket, select-ticket or ticket deletion gets a 403
rejected-operation result, the storage state is unchanged and no event is
broadcast — whatever the storage outcomes of the later calls would have been. -/
theorem non_owner_rejected (db : DB) (user : User) (sessionID : String)
    (hOwner : user.id ≠ db.session.ownerID) (hFound : db.sessionFound sessionID = true) :
    (∀ updateOk clearOk, Handler.StartVoting db (some user) sessionID true updateOk clearOk =
      ⟨db, [.store "GetSessionByID" true], .forbidden "Only session owner can start voting"⟩) ∧
    (∀ updateOk getVotesOk, Handler.EndVoting db (some user) sessionID true updateOk getVotesOk =
      ⟨db, [.store "GetSessionByID" true], .forbidden "Only session owner can end voting"⟩) ∧
    (∀ updateOk, Handler.NextTicket db (some user) sessionID true updateOk =
      ⟨db, [.store "GetSessionByID" true], .forbidden "Only session owner can advance tickets"⟩) ∧
    (∀ ticketID updateOk, Handler.SelectTicket db (some user) sessionID ticketID true updateOk =
      ⟨db, [.store "GetSessionByID" true], .forbidden "Only session owner can select tickets"⟩) ∧
    (∀ tid getTicketOk updateOk deleteOk,
      Handler.DeleteTicket db (some user) sessionID (some tid) true getTicketOk updateOk deleteOk =
      ⟨db, [.store "GetSessionByID" true], .forbidden "Only session owner can delete tickets"⟩) := by
  have hne : (db.session.ownerID == user.id) = false :=
    beq_eq_false_iff_ne.mpr (fun h => hOwner h.symm)
  refine ⟨?_, ?_, ?_, ?_, ?_⟩
  · intro updateOk clearOk
    simp [Handler.StartVoting, hFound, hne]
  · intro updateOk getVotesOk
    simp [Handler.EndVoting, hFound, hne]
  · intro updateOk
    simp [Handler.NextTicket, hFound, hne]
  · intro ticketID updateOk
    simp [Handler.SelectTicket, hFound, hne]
  · intro tid getTicketOk updateOk deleteOk
    simp [Handler.DeleteTicket, hFound, hne]

/-- Witness for C4: a concrete non-owner caller against a concrete session. -/
theorem non_owner_rejected_witness :
    Handler.StartVoting ⟨⟨"s1", "owner", none, false⟩, [], [], 1, false⟩
        (some ⟨"mallory", "m"⟩) "s1" true true true =
      ⟨⟨⟨"s1", "owner", none, false⟩, [], [], 1, false⟩, [.store "GetSessionByID" true],
       .forbidden "Only session owner can start voting"⟩ :=
  (non_owner_rejected ⟨⟨"s1", "owner", none, false⟩, [], [], 1, false⟩ ⟨"mallory", "m"⟩ "s1"
    (by decide) (by decide)).1 true true

theorem ea_SubmitVote (db : DB) (caller : Option User) (sessionID voteValue : String)
    (getOk submitOk : Bool) :
    emitImpliesApplied (Handler.SubmitVote db caller sessionID voteValue getOk submitOk) := by
  unfold Handler.SubmitVote emitImpliesApplied
  rcases caller with _ | user
  · exact ⟨fun h => absurd rfl h, rfl⟩
  · repeat' split
    all_goals refine ⟨fun h => ?_, rfl⟩
    all_goals first | rfl | exact absurd rfl h

theorem ea_StartVoting (db : DB) (caller : Option User) (sessionID : String)
    (getOk updateOk clearOk : Bool) :
    emitImpliesApplied (Handler.StartVoting db caller sessionID getOk updateOk clearOk) := by
  unfold Handler.StartVoting emitImpliesApplied
  rcases caller with _ | user
  · exact ⟨fun h => absurd rfl h, rfl⟩
  · repeat' split
    all_goals refine ⟨fun h => ?_, rfl⟩
    all_goals first | rfl | exact absurd rfl h

theorem ea_EndVoting (db : DB) (caller : Option User) (sessionID : String)
    (getOk updateOk getVotesOk : Bool) :
    emitImpliesApplied (Handler.EndVoting db caller sessionID getOk updateOk getVotesOk) := by
  unfold Handler.EndVoting emitImpliesApplied
  rcases caller with _ | user
  · exact ⟨fun h => absurd rfl h, rfl⟩
  · repeat' split
    all_goals refine ⟨fun h => ?_, rfl⟩
    all_goals first | rfl | exact absurd rfl h

theorem ea_NextTicket (db : DB) (caller : Option User) (sessionID : String)
    (getOk updateOk : Bool) :
    emitImpliesApplied (Handler.NextTicket db caller sessionID getOk updateOk) := by
  unfold Handler.NextTicket emitImpliesApplied
  rcases caller with _ | user
  · exact ⟨fun h => absurd rfl h, rfl⟩
  · repeat' split
    all_goals refine ⟨fun h => ?_, rfl⟩
    all_goals first | rfl | exact absurd rfl h

theorem ea_SelectTicket (db : DB) (caller : Option User) (sessionID : String)
    (ticketID : Option Nat) (getOk updateOk : Bool) :
    emitImpliesApplied (Handler.SelectTicket db caller sessionID ticketID getOk updateOk) := by
  unfold Handler.SelectTicket emitImpliesApplied
  rcases caller with _ | user
  · exact ⟨fun h => absurd rfl h, rfl⟩
  · repeat' split
    all_goals refine ⟨fun h => ?_, rfl⟩
    all_goals first | rfl | exact absurd rfl h

theorem ea_CreateTicket (db : DB) (caller : Option User) (sessionID title description : String)
    (getOk createOk : Bool) :
    emitImpliesApplied (Handler.CreateTicket db caller sessionID title description getOk createOk) := by
  unfold Handler.CreateTicket emitImpliesApplied
  rcases caller with _ | user
  · exact ⟨fun h => absurd rfl h, rfl⟩
  · repeat' split
    all_goals refine ⟨fun h => ?_, rfl⟩
    all_goals first | rfl | exact absurd rfl h

theorem ea_UpdateTicket (db : DB) (caller : Option User) (sessionID : String)
    (ticketID : Option Nat) (title description : String) (finalEstimateForm : Option Int)
    (getOk getTicketOk updateOk : Bool) :
    emitImpliesApplied (Handler.UpdateTicket db caller sessionID ticketID title description
      finalEstimateForm getOk getTicketOk updateOk) := by
  unfold Handler.UpdateTicket emitImpliesApplied
  rcases caller with _ | user
  · exact ⟨fun h => absurd rfl h, rfl⟩
  · repeat' split
    all_goals refine ⟨fun h => ?_, rfl⟩
    all_goals first | rfl | exact absurd rfl h

theorem ea_DeleteTicket (db : DB) (caller : Option User) (sessionID : String)
    (ticketID : Option Nat) (getOk getTicketOk updateOk deleteOk : Bool) :
    emitImpliesApplied (Handler.DeleteTicket db caller sessionID ticketID getOk getTicketOk
      updateOk deleteOk) := by
  unfold Handler.DeleteTicket emitImpliesApplied
  rcases caller with _ | user
  · exact ⟨fun h => absurd rfl h, rfl⟩
  · repeat' split
    all_goals refine ⟨fun h => ?_, rfl⟩
    all_goals first | rfl | exact absurd rfl h

/-- C1 amended: for start-voting, end-voting, submit-vote, advance and select
ticket, and ticket create / update / delete, a broadcast implies that every
storage call of the run succeeded and no storage call followed a broadcast
(emit strictly after the applied mutation; a failed storage step emits
nothing). Session delete is the exception the source codes deliberately: it
broadcasts session-ended BEFORE the storage delete, so its event is emitted
whether or not the delete succeeds. -/
theorem emit_implies_applied_except_delete_session :
    (∀ db caller sessionID voteValue getOk submitOk,
      emitImpliesApplied (Handler.SubmitVote db caller sessionID voteValue getOk submitOk)) ∧
    (∀ db caller sessionID getOk updateOk clearOk,
      emitImpliesApplied (Handler.StartVoting db caller sessionID getOk updateOk clearOk)) ∧
    (∀ db caller sessionID getOk updateOk getVotesOk,
      emitImpliesApplied (Handler.EndVoting db caller sessionID getOk updateOk getVotesOk)) ∧
    (∀ db caller sessionID getOk updateOk,
      emitImpliesApplied (Handler.NextTicket db caller sessionID getOk updateOk)) ∧
    (∀ db caller sessionID ticketID getOk updateOk,
      emitImpliesApplied (Handler.SelectTicket db caller sessionID ticketID getOk updateOk)) ∧
    (∀ db caller sessionID title description getOk createOk,
      emitImpliesApplied
        (Handler.CreateTicket db caller sessionID title description getOk createOk)) ∧
    (∀ db caller sessionID ticketID title description finalEstimateForm getOk getTicketOk updateOk,
      emitImpliesApplied (Handler.UpdateTicket db caller sessionID ticketID title description
        finalEstimateForm getOk getTicketOk updateOk)) ∧
    (∀ db caller sessionID ticketID getOk getTicketOk updateOk deleteOk,
      emitImpliesApplied (Handler.DeleteTicket db caller sessionID ticketID getOk getTicketOk
        updateOk deleteOk)) ∧
    (∀ (db : DB) (user : User) (sessionID : String) (deleteOk : Bool),
      db.sessionFound sessionID = true → db.session.ownerID = user.id →
      (Handler.DeleteSession db (some user) sessionID true deleteOk).trace =
        [.store "GetSessionByID" true,
         .emit (.sessionEnded "Session has been ended by the owner"),
         .store "DeleteSession" deleteOk]) := by
  refine ⟨ea_SubmitVote, ea_StartVoting, ea_EndVoting, ea_NextTicket, ea_SelectTicket,
    ea_CreateTicket, ea_UpdateTicket, ea_DeleteTicket, ?_⟩
  intro db user sessionID deleteOk hFound hOwner
  have hbe : (db.session.ownerID == user.id) = true := by simp [hOwner]
  cases deleteOk <;> simp [Handler.DeleteSession, hFound, hbe]

/-- Witness for C1: the amended statement applied to a concrete run of every
handler, with the DeleteSession hypotheses discharged at a concrete session. -/
theorem emit_implies_applied_witness :
    emitImpliesApplied (Handler.SubmitVote ⟨⟨"s1", "owner", none, false⟩, [], [], 1, false⟩
      (some ⟨"alice", "a"⟩) "s1" "5" true true) ∧
    (Handler.DeleteSession ⟨⟨"s1", "owner", none, false⟩, [], [], 1, false⟩
        (some ⟨"owner", "o"⟩) "s1" true false).trace =
      [.store "GetSessionByID" true,
       .emit (.sessionEnded "Session has been ended by the owner"),
       .store "DeleteSession" false] :=
  ⟨emit_implies_applied_except_delete_session.1 _ _ "s1" "5" true true,
   emit_implies_applied_except_delete_session.2.2.2.2.2.2.2.2 _ ⟨"owner", "o"⟩ "s1" false
     (by decide) rfl⟩

/-- C1 counterexample: the owner deletes a session, the storage delete fails,
yet the session-ended event was already broadcast — a storage failure with an
emitted event, contradicting the claim for the session-delete operation. -/
theorem delete_session_emits_despite_storage_failure :
    (Handler.DeleteSession ⟨⟨"s1", "owner", none, false⟩, [], [], 1, false⟩
        (some ⟨"owner", "o"⟩) "s1" true false).resp =
      .internalError "Failed to delete session" ∧
    (Handler.DeleteSession ⟨⟨"s1", "owner", none, false⟩, [], [], 1, false⟩
        (some ⟨"owner", "o"⟩) "s1" true false).events =
      [.sessionEnded "Session has been ended by the owner"] := by
  decide

/-- The storage state of a session in the Selected state: reached from a
fresh session by ticket creation followed by ticket selection, with no
start-voting in the history. -/
def c2SelectedDB : DB :=
  (Handler.SelectTicket
    (Handler.CreateTicket ⟨⟨"s1", "owner", none, false⟩, [], [], 1, false⟩
      (some ⟨"owner", "o"⟩) "s1" "T1" "" true true).db
    (some ⟨"owner", "o"⟩) "s1" (some 1) true true).db

/-- C2 counterexample: in the Selected state — a current ticket is set and
voting was never started since selection — vote submission is ACCEPTED (the
handler only checks that a current ticket exists), contradicting the claim
that it is rejected there. -/
theorem vote_accepted_in_selected_state :
    c2SelectedDB.session.currentTicketID = some 1 ∧
    c2SelectedDB.session.isVotingActive = false ∧
    (Handler.SubmitVote c2SelectedDB (some ⟨"alice", "a"⟩) "s1" "5" true true).resp = .ok ∧
    (Handler.SubmitVote c2SelectedDB (some ⟨"alice", "a"⟩) "s1" "5" true true).events =
      [.voteCast "alice" ⟨1, "alice", "5"⟩] := by
  decide

/-- C2 amended: for an authenticated caller, an existing session, a vote value
passing both validation lists and successful storage, vote submission succeeds
exactly when a current ticket is set — so it is accepted in Selected, Voting
and Reviewing alike (the code does not consult the voting-active flag or the
voting history) and rejected only when no current ticket is set. -/
theorem vote_accepted_iff_current_ticket (db : DB) (user : User)
    (sessionID voteValue : String)
    (hval : ValidateVoteValue voteValue = true)
    (hcard : AllVotingCards.contains voteValue = true)
    (hFound : db.sessionFound sessionID = true) :
    (db.currentTicket = none →
      Handler.SubmitVote db (some user) sessionID voteValue true true =
        ⟨db, [.store "GetSessionByID" true], .badRequest "No active ticket"⟩) ∧
    (∀ ct, db.currentTicket = some ct →
      Handler.SubmitVote db (some user) sessionID voteValue true true =
        ⟨{ db with votes := submitVoteStore db.votes ct.id user.id voteValue },
         [.store "GetSessionByID" true, .store "SubmitVote" true,
          .emit (.voteCast user.id ⟨ct.id, user.id, voteValue⟩)],
         .ok⟩) := by
  have hmem : voteValue ∈ AllVotingCards := by simpa using hcard
  constructor
  · intro hct
    simp [Handler.SubmitVote, hval, hFound, hct]
  · intro ct hct
    simp [Handler.SubmitVote, hval, hFound, hct, hmem]

/-- Witness for C2 at the concrete Selected-state session. -/
theorem vote_accepted_iff_current_ticket_witness :
    Handler.SubmitVote c2SelectedDB (some ⟨"bob", "b"⟩) "s1" "8" true true =
      ⟨{ c2SelectedDB with votes := submitVoteStore c2SelectedDB.votes 1 "bob" "8" },
       [.store "GetSessionByID" true, .store "SubmitVote" true,
        .emit (.voteCast "bob" ⟨1, "bob", "8"⟩)],
       .ok⟩ :=
  (vote_accepted_iff_current_ticket c2SelectedDB ⟨"bob", "b"⟩ "s1" "8"
    (by decide) (by decide) (by decide)).2 ⟨1, "s1", "T1", "", none, 1⟩ (by decide)

/-- C6 (code bug): the owner ends voting while no current ticket is set; the
handler persists is_voting_active = false via UpdateSession and then
dereferences the nil CurrentTicket pointer — a panic (recovered to a 500 by
the middleware), not the rejected-operation response the spec requires, and
the UpdateSession write has already happened when the panic hits. -/
theorem end_voting_nil_ticket_panics :
    (Handler.EndVoting ⟨⟨"s1", "owner", none, false⟩, [], [], 1, false⟩
        (some ⟨"owner", "o"⟩) "s1" true true true).resp = .panicked ∧
    (Handler.EndVoting ⟨⟨"s1", "owner", none, false⟩, [], [], 1, false⟩
        (some ⟨"owner", "o"⟩) "s1" true true true).events = [] ∧
    (Handler.EndVoting ⟨⟨"s1", "owner", none, false⟩, [], [], 1, false⟩
        (some ⟨"owner", "o"⟩) "s1" true true true).trace =
      [.store "GetSessionByID" true, .store "UpdateSession" true] := by
  decide

theorem find_getLast_nodup (l : List Ticket) (t : Ticket)
    (hn : (l.map (fun x => x.id)).Nodup) (hl : l.getLast? = some t) :
    l.find? (fun x => x.id == t.id) = some t := by
  induction l with
  | nil => simp at hl
  | cons a m ih =>
    cases m with
    | nil =>
      simp at hl
      subst hl
      simp [List.find?]
    | cons b m2 =>
      rw [List.getLast?_cons_cons] at hl
      have ht : t ∈ b :: m2 := List.mem_of_getLast?_eq_some hl
      have htid : t.id ∈ (b :: m2).map (fun x => x.id) := List.mem_map_of_mem _ ht
      have hcons : (a.id :: (b :: m2).map (fun x => x.id)).Nodup := by simpa using hn
      have hna := (List.nodup_cons.mp hcons).1
      have hn2 := (List.nodup_cons.mp hcons).2
      have hne : ¬((fun x => x.id == t.id) a = true) := by
        simp only [beq_iff_eq]
        intro h
        rw [← h] at htid
        exact hna htid
      have hstep : List.find? (fun x => x.id == t.id) (a :: b :: m2) =
          List.find? (fun x => x.id == t.id) (b :: m2) :=
        List.find?_cons_of_neg _ hne
      rw [hstep]
      exact ih hn2 hl

theorem findNext_getLast_none (l : List Ticket) (t : Ticket)
    (hn : (l.map (fun x => x.id)).Nodup) (hl : l.getLast? = some t) :
    findNextTicket t.id l = none := by
  induction l with
  | nil => rfl
  | cons a m ih =>
    cases m with
    | nil => rfl
    | cons b m2 =>
      rw [List.getLast?_cons_cons] at hl
      have ht : t ∈ b :: m2 := List.mem_of_getLast?_eq_some hl
      have htid : t.id ∈ (b :: m2).map (fun x => x.id) := List.mem_map_of_mem _ ht
      have hcons : (a.id :: (b :: m2).map (fun x => x.id)).Nodup := by simpa using hn
      have hna := (List.nodup_cons.mp hcons).1
      have hn2 := (List.nodup_cons.mp hcons).2
      have hne : (a.id == t.id) = false := by
        refine Bool.eq_false_iff.mpr ?_
        intro h
        have hid : a.id = t.id := by simpa using h
        rw [← hid] at htid
        exact hna htid
      rw [findNextTicket]
      simp only [hne, Bool.false_eq_true, if_false]
      exact ih hn2 hl

/-- C10: when the owner advances and the current ticket is the last one of the
ordered list (or the list is empty), the current-ticket pointer is set to
null, the voting flag to false, and a ticket-changed event with a nil ticket
payload is still broadcast. -/
theorem advance_past_last_ticket (db : DB) (user : User) (sessionID : String)
    (hFound : db.sessionFound sessionID = true) (hOwner : db.session.ownerID = user.id)
    (hn : (db.tickets.map (fun t => t.id)).Nodup)
    (hlast : db.tickets = [] ∨ ∃ t, db.tickets.getLast? = some t ∧
      db.session.currentTicketID = some t.id) :
    Handler.NextTicket db (some user) sessionID true true =
      ⟨{ db with session := { db.session with
           currentTicketID := none, isVotingActive := false } },
       [.store "GetSessionByID" true, .store "UpdateSession" true,
        .emit (.ticketChanged none)],
       .ok⟩ := by
  have hbe : (db.session.ownerID == user.id) = true := by simp [hOwner]
  have hnext : computeNextTicket db = none := by
    rcases hlast with hnil | ⟨t, hl, hct⟩
    · have hcur : db.currentTicket = none := by
        cases h : db.session.currentTicketID <;> simp [DB.currentTicket, h, hnil]
      simp [computeNextTicket, hcur, hnil]
    · have hcur : db.currentTicket = some t := by
        simp only [DB.currentTicket, hct]
        exact find_getLast_nodup db.tickets t hn hl
      simp only [computeNextTicket, hcur]
      exact findNext_getLast_none db.tickets t hn hl
  simp [Handler.NextTicket, hFound, hbe, hnext]

/-- Witness for C10: a session whose current ticket is the second of two. -/
theorem advance_past_last_ticket_witness :
    Handler.NextTicket
      ⟨⟨"s1", "owner", some 2, false⟩,
       [⟨1, "s1", "A", "", none, 1⟩, ⟨2, "s1", "B", "", none, 2⟩], [], 3, false⟩
      (some ⟨"owner", "o"⟩) "s1" true true =
    ⟨⟨⟨"s1", "owner", none, false⟩,
      [⟨1, "s1", "A", "", none, 1⟩, ⟨2, "s1", "B", "", none, 2⟩], [], 3, false⟩,
     [.store "GetSessionByID" true, .store "UpdateSession" true,
      .emit (.ticketChanged none)],
     .ok⟩ :=
  advance_past_last_ticket
    ⟨⟨"s1", "owner", some 2, false⟩,
     [⟨1, "s1", "A", "", none, 1⟩, ⟨2, "s1", "B", "", none, 2⟩], [], 3, false⟩
    ⟨"owner", "o"⟩ "s1" (by decide) rfl (by decide)
    (Or.inr ⟨⟨2, "s1", "B", "", none, 2⟩, by decide, by decide⟩)

/-- The data-model invariant of the spec: the voting-active flag implies a
current-ticket pointer. -/
def VotingInv (db : DB) : Prop :=
  db.session.isVotingActive = true → db.session.currentTicketID ≠ none

/-- The storage states reachable from a freshly created session (CreateSession
writes no current ticket and an inactive voting flag) by any sequence of
mutating handler runs with arbitrary callers, parameters and storage
outcomes. -/
inductive Reachable : DB → Prop
  | init (s : Session) (tid : Nat) : s.currentTicketID = none → s.isVotingActive = false →
      Reachable ⟨s, [], [], tid, false⟩
  | submitVote (db : DB) (caller : Option User) (sessionID voteValue : String)
      (getOk submitOk : Bool) : Reachable db →
      Reachable (Handler.SubmitVote db caller sessionID voteValue getOk submitOk).db
  | startVoting (db : DB) (caller : Option User) (sessionID : String)
      (getOk updateOk clearOk : Bool) : Reachable db →
      Reachable (Handler.StartVoting db caller sessionID getOk updateOk clearOk).db
  | endVoting (db : DB) (caller : Option User) (sessionID : String)
      (getOk updateOk getVotesOk : Bool) : Reachable db →
      Reachable (Handler.EndVoting db caller sessionID getOk updateOk getVotesOk).db
  | nextTicket (db : DB) (caller : Option User) (sessionID : String)
      (getOk updateOk : Bool) : Reachable db →
      Reachable (Handler.NextTicket db caller sessionID getOk updateOk).db
  | selectTicket (db : DB) (caller : Option User) (sessionID : String)
      (ticketID : Option Nat) (getOk updateOk : Bool) : Reachable db →
      Reachable (Handler.SelectTicket db caller sessionID ticketID getOk updateOk).db
  | createTicket (db : DB) (caller : Option User) (sessionID title description : String)
      (getOk createOk : Bool) : Reachable db →
      Reachable (Handler.CreateTicket db caller sessionID title description getOk createOk).db
  | updateTicket (db : DB) (caller : Option User) (sessionID : String)
      (ticketID : Option Nat) (title description : String) (finalEstimateForm : Option Int)
      (getOk getTicketOk updateOk : Bool) : Reachable db →
      Reachable (Handler.UpdateTicket db caller sessionID ticketID title description
        finalEstimateForm getOk getTicketOk updateOk).db
  | deleteTicket (db : DB) (caller : Option User) (sessionID : String)
      (ticketID : Option Nat) (getOk getTicketOk updateOk deleteOk : Bool) : Reachable db →
      Reachable (Handler.DeleteTicket db caller sessionID ticketID getOk getTicketOk
        updateOk deleteOk).db
  | deleteSession (db : DB) (caller : Option User) (sessionID : String)
      (getOk deleteOk : Bool) : Reachable db →
      Reachable (Handler.DeleteSession db caller sessionID getOk deleteOk).db

theorem currentTicket_some_imp (db : DB) (ct : Ticket) (h : db.currentTicket = some ct) :
    db.session.currentTicketID ≠ none := by
  intro hn
  simp [DB.currentTicket, hn] at h

theorem inv_SubmitVote (db : DB) (caller : Option User) (sessionID voteValue : String)
    (getOk submitOk : Bool) (h : VotingInv db) :
    VotingInv (Handler.SubmitVote db caller sessionID voteValue getOk submitOk).db := by
  unfold Handler.SubmitVote
  rcases caller with _ | user
  · exact h
  · repeat' split
    all_goals exact h

theorem inv_StartVoting (db : DB) (caller : Option User) (sessionID : String)
    (getOk updateOk clearOk : Bool) (h : VotingInv db) :
    VotingInv (Handler.StartVoting db caller sessionID getOk updateOk clearOk).db := by
  unfold Handler.StartVoting
  rcases caller with _ | user
  · exact h
  · repeat' split
    all_goals first
      | exact h
      | exact fun _ => currentTicket_some_imp db _ (by assumption)

theorem inv_EndVoting (db : DB) (caller : Option User) (sessionID : String)
    (getOk updateOk getVotesOk : Bool) (h : VotingInv db) :
    VotingInv (Handler.EndVoting db caller sessionID getOk updateOk getVotesOk).db := by
  unfold Handler.EndVoting
  rcases caller with _ | user
  · exact h
  · repeat' split
    all_goals first
      | exact h
      | exact fun hx => Bool.noConfusion hx

theorem inv_NextTicket (db : DB) (caller : Option User) (sessionID : String)
    (getOk updateOk : Bool) (h : VotingInv db) :
    VotingInv (Handler.NextTicket db caller sessionID getOk updateOk).db := by
  unfold Handler.NextTicket
  rcases caller with _ | user
  · exact h
  · repeat' split
    all_goals first
      | exact h
      | exact fun hx => Bool.noConfusion hx

theorem inv_SelectTicket (db : DB) (caller : Option User) (sessionID : String)
    (ticketID : Option Nat) (getOk updateOk : Bool) (h : VotingInv db) :
    VotingInv (Handler.SelectTicket db caller sessionID ticketID getOk updateOk).db := by
  unfold Handler.SelectTicket
  rcases caller with _ | user
  · exact h
  · repeat' split
    all_goals first
      | exact h
      | exact fun hx => Bool.noConfusion hx

theorem inv_CreateTicket (db : DB) (caller : Option User) (sessionID title description : String)
    (getOk createOk : Bool) (h : VotingInv db) :
    VotingInv (Handler.CreateTicket db caller sessionID title description getOk createOk).db := by
  unfold Handler.CreateTicket
  rcases caller with _ | user
  · exact h
  · repeat' split
    all_goals exact h

theorem inv_UpdateTicket (db : DB) (caller : Option User) (sessionID : String)
    (ticketID : Option Nat) (title description : String) (finalEstimateForm : Option Int)
    (getOk getTicketOk updateOk : Bool) (h : VotingInv db) :
    VotingInv (Handler.UpdateTicket db caller sessionID ticketID title description
      finalEstimateForm getOk getTicketOk updateOk).db := by
  unfold Handler.UpdateTicket
  rcases caller with _ | user
  · exact h
  · repeat' split
    all_goals exact h

theorem inv_DeleteTicket (db : DB) (caller : Option User) (sessionID : String)
    (ticketID : Option Nat) (getOk getTicketOk updateOk deleteOk : Bool) (h : VotingInv db) :
    VotingInv (Handler.DeleteTicket db caller sessionID ticketID getOk getTicketOk
      updateOk deleteOk).db := by
  unfold Handler.DeleteTicket
  rcases caller with _ | user
  · exact h
  · repeat' split
    all_goals first
      | exact h
      | exact fun hx => Bool.noConfusion hx

theorem inv_DeleteSession (db : DB) (caller : Option User) (sessionID : String)
    (getOk deleteOk : Bool) (h : VotingInv db) :
    VotingInv (Handler.DeleteSession db caller sessionID getOk deleteOk).db := by
  unfold Handler.DeleteSession
  rcases caller with _ | user
  · exact h
  · repeat' split
    all_goals exact h

/-- C9: in every storage state reachable by any sequence of mutating handler
runs from a fresh session, the voting-active flag being set implies that the
current-ticket pointer is non-null. -/
theorem voting_active_implies_current_ticket (db : DB) (h : Reachable db) :
    db.session.isVotingActive = true → db.session.currentTicketID ≠ none := by
  induction h with
  | init s tid h1 h2 =>
    intro hx
    rw [h2] at hx
    exact Bool.noConfusion hx
  | submitVote db caller sessionID voteValue getOk submitOk hr ih =>
    exact inv_SubmitVote db caller sessionID voteValue getOk submitOk ih
  | startVoting db caller sessionID getOk updateOk clearOk hr ih =>
    exact inv_StartVoting db caller sessionID getOk updateOk clearOk ih
  | endVoting db caller sessionID getOk updateOk getVotesOk hr ih =>
    exact inv_EndVoting db caller sessionID getOk updateOk getVotesOk ih
  | nextTicket db caller sessionID getOk updateOk hr ih =>
    exact inv_NextTicket db caller sessionID getOk updateOk ih
  | selectTicket db caller sessionID ticketID getOk updateOk hr ih =>
    exact inv_SelectTicket db caller sessionID ticketID getOk updateOk ih
  | createTicket db caller sessionID title description getOk createOk hr ih =>
    exact inv_CreateTicket db caller sessionID title description getOk createOk ih
  | updateTicket db caller sessionID ticketID title description finalEstimateForm getOk getTicketOk updateOk hr ih =>
    exact inv_UpdateTicket db caller sessionID ticketID title description finalEstimateForm
      getOk getTicketOk updateOk ih
  | deleteTicket db caller sessionID ticketID getOk getTicketOk updateOk deleteOk hr ih =>
    exact inv_DeleteTicket db caller sessionID ticketID getOk getTicketOk updateOk deleteOk ih
  | deleteSession db caller sessionID getOk deleteOk hr ih =>
    exact inv_DeleteSession db caller sessionID getOk deleteOk ih

/-- A fresh session followed by ticket creation, selection and start of
voting: a concrete reachable state whose voting flag is set. -/
def c9dbVoting : DB :=
  (Handler.StartVoting
    (Handler.SelectTicket
      (Handler.CreateTicket ⟨⟨"s1", "owner", none, false⟩, [], [], 1, false⟩
        (some ⟨"owner", "o"⟩) "s1" "T1" "" true true).db
      (some ⟨"owner", "o"⟩) "s1" (some 1) true true).db
    (some ⟨"owner", "o"⟩) "s1" true true true).db

/-- Witness for C9 at the concrete reachable voting state. -/
theorem voting_active_implies_current_ticket_witness :
    c9dbVoting.session.currentTicketID ≠ none :=
  voting_active_implies_current_ticket c9dbVoting
    (Reachable.startVoting _ (some ⟨"owner", "o"⟩) "s1" true true true
      (Reachable.selectTicket _ (some ⟨"owner", "o"⟩) "s1" (some 1) true true
        (Reachable.createTicket _ (some ⟨"owner", "o"⟩) "s1" "T1" "" true true
          (Reachable.init ⟨"s1", "owner", none, false⟩ 1 rfl rfl))))
    (by decide)

/-! ### C5: one voting round -/

/-- Modelled from the SPEC wording, not from the code: the latest vote per
user of a chronological submission sequence — the value of the last pair
naming that user, if any. Compared below with what the handlers compute. -/
def lastSubmission : List (String × String) → String → Option String
  | [], _ => none
  | (u0, v0) :: rest, u =>
    match lastSubmission rest u with
    | some v => some v
    | none => if u0 == u then some v0 else none

/-- N submit-vote handler runs in chronological order, one per (user, value)
pair, with all storage calls succeeding. -/
def runSubmissions (sessionID : String) : DB → List (String × String) → DB
  | db, [] => db
  | db, (u, v) :: rest =>
    runSubmissions sessionID
      (Handler.SubmitVote db (some ⟨u, u⟩) sessionID v true true).db rest

/-- The same submission sequence applied directly to the votes table. -/
def applySubmissions (ticketID : Nat) : List Vote → List (String × String) → List Vote
  | votes, [] => votes
  | votes, (u, v) :: rest => applySubmissions ticketID (submitVoteStore votes ticketID u v) rest

/-- Start-voting (and ticket deletion cascade) clears the ticket completely. -/
theorem getVotes_clear (votes : List Vote) (tid : Nat) :
    getVotesForTicket (clearVotesForTicket votes tid) tid = [] := by
  refine List.filter_eq_nil_iff.mpr ?_
  intro v hv
  have hne := (List.mem_filter.mp hv).2
  simp only [Bool.not_eq_true'] at hne
  simp [hne]

theorem runSubmissions_spec (sessionID : String) (subs : List (String × String)) :
    ∀ (db : DB) (ct : Ticket),
    db.sessionFound sessionID = true → db.currentTicket = some ct →
    (∀ p ∈ subs, ValidateVoteValue p.2 = true ∧ p.2 ∈ AllVotingCards) →
    runSubmissions sessionID db subs =
      { db with votes := applySubmissions ct.id db.votes subs } := by
  induction subs with
  | nil =>
    intro db ct h1 h2 h3
    rfl
  | cons p rest ih =>
    intro db ct h1 h2 h3
    obtain ⟨u, v⟩ := p
    have hv := h3 (u, v) (List.mem_cons_self _ _)
    have hstep : Handler.SubmitVote db (some ⟨u, u⟩) sessionID v true true =
        ⟨{ db with votes := submitVoteStore db.votes ct.id u v },
         [.store "GetSessionByID" true, .store "SubmitVote" true,
          .emit (.voteCast u ⟨ct.id, u, v⟩)],
         .ok⟩ := by
      simp [Handler.SubmitVote, hv.1, h1, h2, hv.2]
    rw [runSubmissions, hstep]
    rw [ih { db with votes := submitVoteStore db.votes ct.id u v } ct h1 h2
      (fun q hq => h3 q (List.mem_cons_of_mem _ hq))]
    simp [applySubmissions]

theorem mem_applySubmissions (ticketID : Nat) (subs : List (String × String)) :
    ∀ (votes : List Vote) (u v : String),
    ((⟨ticketID, u, v⟩ : Vote) ∈ applySubmissions ticketID votes subs ↔
      (lastSubmission subs u = some v ∨
       (lastSubmission subs u = none ∧ (⟨ticketID, u, v⟩ : Vote) ∈ votes))) := by
  induction subs with
  | nil =>
    intro votes u v
    simp [applySubmissions, lastSubmission]
  | cons p rest ih =>
    intro votes u v
    obtain ⟨u0, v0⟩ := p
    rw [applySubmissions, ih]
    have hmem : ((⟨ticketID, u, v⟩ : Vote) ∈ submitVoteStore votes ticketID u0 v0) ↔
        ((u = u0 ∧ v = v0) ∨ (¬(u = u0) ∧ (⟨ticketID, u, v⟩ : Vote) ∈ votes)) := by
      simp only [submitVoteStore, List.mem_append, List.mem_filter, List.mem_singleton]
      constructor
      · rintro (⟨hin, hcond⟩ | heq)
        · simp only [beq_self_eq_true, Bool.true_and, Bool.not_eq_true'] at hcond
          exact Or.inr ⟨by simpa using hcond, hin⟩
        · simp only [Vote.mk.injEq, true_and] at heq
          exact Or.inl heq
      · rintro (⟨hu, hv⟩ | ⟨hu, hin⟩)
        · exact Or.inr (by simp [hu, hv])
        · exact Or.inl ⟨hin, by simp [hu]⟩
    cases hls : lastSubmission rest u with
    | some w =>
      simp [lastSubmission, hls]
    | none =>
      by_cases hu : u0 = u
      · have hcons : lastSubmission ((u0, v0) :: rest) u = some v0 := by
          simp [lastSubmission, hls, hu]
        rw [hcons, hmem]
        simp only [hls, hu]
        constructor
        · rintro (h | ⟨-, (⟨-, hvv⟩ | ⟨hne, -⟩)⟩)
          · exact absurd h (by simp)
          · simp [hvv]
          · exact absurd trivial hne
        · intro h
          have hvv : v0 = v := by simpa using h
          exact Or.inr ⟨trivial, Or.inl ⟨trivial, hvv.symm⟩⟩
      · have hcons : lastSubmission ((u0, v0) :: rest) u = none := by
          simp [lastSubmission, hls, hu]
        rw [hcons, hmem]
        simp only [hls]
        constructor
        · rintro (h | ⟨-, (⟨heq, -⟩ | ⟨-, hin⟩)⟩)
          · exact absurd h (by simp)
          · exact absurd heq.symm hu
          · exact Or.inr ⟨trivial, hin⟩
        · rintro (h | ⟨-, hin⟩)
          · exact absurd h (by simp)
          · exact Or.inr ⟨trivial, Or.inr ⟨fun hx => hu hx.symm, hin⟩⟩

theorem getVotes_submitStore (votes : List Vote) (ticketID : Nat) (u v : String) :
    getVotesForTicket (submitVoteStore votes ticketID u v) ticketID =
      (getVotesForTicket votes ticketID).filter (fun w => !(w.userID == u)) ++
        [⟨ticketID, u, v⟩] := by
  simp only [getVotesForTicket, submitVoteStore, List.filter_append, List.filter_filter]
  congr 1
  · refine List.filter_congr ?_
    intro w _
    cases h1 : (w.ticketID == ticketID) <;> cases h2 : (w.userID == u) <;> simp [h1, h2]
  · simp

theorem nodup_getVotes_submitStore (votes : List Vote) (ticketID : Nat) (u v : String)
    (h : ((getVotesForTicket votes ticketID).map (fun w => w.userID)).Nodup) :
    ((getVotesForTicket (submitVoteStore votes ticketID u v) ticketID).map
      (fun w => w.userID)).Nodup := by
  rw [getVotes_submitStore, List.map_append]
  refine List.Nodup.append ?_ (by simp) ?_
  · exact ((List.filter_sublist _).map _).nodup h
  · intro x hx1 hx2
    have hxu : x = u := by simpa using hx2
    subst hxu
    rcases List.mem_map.mp hx1 with ⟨w, hw, hwid⟩
    have hcond := (List.mem_filter.mp hw).2
    rw [hwid] at hcond
    simp at hcond

theorem nodup_getVotes_applySubmissions (ticketID : Nat) (subs : List (String × String)) :
    ∀ votes : List Vote,
    ((getVotesForTicket votes ticketID).map (fun w => w.userID)).Nodup →
    ((getVotesForTicket (applySubmissions ticketID votes subs) ticketID).map
      (fun w => w.userID)).Nodup := by
  induction subs with
  | nil =>
    intro votes h
    exact h
  | cons p rest ih =>
    intro votes h
    obtain ⟨u, v⟩ := p
    rw [applySubmissions]
    exact ih _ (nodup_getVotes_submitStore votes ticketID u v h)

/-- C5: for the round start-voting, then N submit-vote runs, then end-voting
on one current ticket: start-voting clears every prior vote of the ticket;
after the submissions the ticket has exactly one vote per user — repeated
votes by the same user replaced the earlier value — and the voting-ended
payload lists exactly the latest vote per user of the round, where the
latest-vote-per-user reading is the spec-modelled `lastSubmission`. -/
theorem round_votes_latest_per_user (db : DB) (user : User) (sessionID : String)
    (ct : Ticket) (subs : List (String × String))
    (hFound : db.sessionFound sessionID = true)
    (hOwner : db.session.ownerID = user.id)
    (hct : db.currentTicket = some ct)
    (hvalid : ∀ p ∈ subs, ValidateVoteValue p.2 = true ∧ p.2 ∈ AllVotingCards) :
    getVotesForTicket
        (Handler.StartVoting db (some user) sessionID true true true).db.votes ct.id = [] ∧
    (Handler.EndVoting (runSubmissions sessionID
          (Handler.StartVoting db (some user) sessionID true true true).db subs)
        (some user) sessionID true true true).events =
      [.votingEnded ct (getVotesForTicket (runSubmissions sessionID
          (Handler.StartVoting db (some user) sessionID true true true).db subs).votes ct.id)] ∧
    (∀ u v, ((⟨ct.id, u, v⟩ : Vote) ∈ getVotesForTicket (runSubmissions sessionID
          (Handler.StartVoting db (some user) sessionID true true true).db subs).votes ct.id) ↔
        lastSubmission subs u = some v) ∧
    ((getVotesForTicket (runSubmissions sessionID
          (Handler.StartVoting db (some user) sessionID true true true).db subs).votes
        ct.id).map (fun w => w.userID)).Nodup := by
  have hbe : (db.session.ownerID == user.id) = true := by simp [hOwner]
  have hstart : Handler.StartVoting db (some user) sessionID true true true =
      ⟨{ db with
         session := { db.session with isVotingActive := true },
         votes := clearVotesForTicket db.votes ct.id },
       [.store "GetSessionByID" true, .store "UpdateSession" true,
        .store "ClearVotesForTicket" true, .emit (.votingStarted ct)],
       .ok⟩ := by
    simp [Handler.StartVoting, hFound, hbe, hct]
  rw [hstart]
  have h1f : ({ db with
      session := { db.session with isVotingActive := true },
      votes := clearVotesForTicket db.votes ct.id } : DB).sessionFound sessionID = true :=
    hFound
  have h1ct : ({ db with
      session := { db.session with isVotingActive := true },
      votes := clearVotesForTicket db.votes ct.id } : DB).currentTicket = some ct := hct
  have hrun := runSubmissions_spec sessionID subs
    { db with
      session := { db.session with isVotingActive := true },
      votes := clearVotesForTicket db.votes ct.id } ct h1f h1ct hvalid
  rw [hrun]
  have hend : Handler.EndVoting
      { db with
        session := { db.session with isVotingActive := true },
        votes := applySubmissions ct.id (clearVotesForTicket db.votes ct.id) subs }
      (some user) sessionID true true true =
      ⟨{ db with
         session := { db.session with isVotingActive := false },
         votes := applySubmissions ct.id (clearVotesForTicket db.votes ct.id) subs },
       [.store "GetSessionByID" true, .store "UpdateSession" true,
        .store "GetVotesForTicket" true,
        .emit (.votingEnded ct (getVotesForTicket
          (applySubmissions ct.id (clearVotesForTicket db.votes ct.id) subs) ct.id))],
       .ok⟩ := by
    have h2ct : ({ db with
        session := { db.session with isVotingActive := true },
        votes := applySubmissions ct.id (clearVotesForTicket db.votes ct.id) subs } :
          DB).currentTicket = some ct := hct
    have hf2 : (sessionID == db.session.id && !db.sessionDeleted) = true := hFound
    simp [Handler.EndVoting, DB.sessionFound, hf2, hbe, h2ct]
  refine ⟨getVotes_clear db.votes ct.id, ?_, ?_, ?_⟩
  · rw [hend]
    simp [HResult.events]
  · intro u v
    simp only [getVotesForTicket, List.mem_filter, beq_self_eq_true, and_true]
    rw [show ((⟨ct.id, u, v⟩ : Vote) ∈ applySubmissions ct.id
        (clearVotesForTicket db.votes ct.id) subs) ↔
        (lastSubmission subs u = some v ∨ (lastSubmission subs u = none ∧
          (⟨ct.id, u, v⟩ : Vote) ∈ clearVotesForTicket db.votes ct.id)) from
      mem_applySubmissions ct.id subs _ u v]
    simp [clearVotesForTicket]
  · refine nodup_getVotes_applySubmissions ct.id subs _ ?_
    rw [getVotes_clear]
    simp

/-- The session of the spec walk-through: two tickets, T1 selected. -/
def c5db : DB :=
  ⟨⟨"s1", "owner", some 1, false⟩,
   [⟨1, "s1", "T1", "", none, 1⟩, ⟨2, "s1", "T2", "", none, 2⟩],
   [⟨1, "owner", "13"⟩], 3, false⟩

/-- Witness for C5: owner starts voting on T1 (stale vote cleared), users A
and B vote 5 and 8, A changes to 3, owner ends voting; the payload holds
exactly the latest vote per user. -/
theorem round_votes_latest_per_user_witness :
    (∀ u v, ((⟨1, u, v⟩ : Vote) ∈ getVotesForTicket (runSubmissions "s1"
          (Handler.StartVoting c5db (some ⟨"owner", "o"⟩) "s1" true true true).db
          [("A", "5"), ("B", "8"), ("A", "3")]).votes 1) ↔
        lastSubmission [("A", "5"), ("B", "8"), ("A", "3")] u = some v) ∧
    ((getVotesForTicket (runSubmissions "s1"
        (Handler.StartVoting c5db (some ⟨"owner", "o"⟩) "s1" true true true).db
        [("A", "5"), ("B", "8"), ("A", "3")]).votes 1).map (fun w => w.userID)).Nodup :=
  ⟨(round_votes_latest_per_user c5db ⟨"owner", "o"⟩ "s1" ⟨1, "s1", "T1", "", none, 1⟩
      [("A", "5"), ("B", "8"), ("A", "3")] (by decide) rfl (by decide) (by decide)).2.2.1,
   (round_votes_latest_per_user c5db ⟨"owner", "o"⟩ "s1" ⟨1, "s1", "T1", "", none, 1⟩
      [("A", "5"), ("B", "8"), ("A", "3")] (by decide) rfl (by decide) (by decide)).2.2.2⟩

end PokerPlanning
